import Mathlib

/-!
Shallow embedding of the fisheries data-cleaning pipeline
(`clean_commercial.py`, `pipeline.py`) and proofs about its behaviour.

File I/O is modelled by value passing: `load_data` becomes an
`Option RawTable` input (`none` = no matching file or an I/O error),
`export_cleaned_data` and `export_summary_json` become recorded outputs,
and `datetime.now()` timestamps become a `String` parameter.
The non-commercial cleaner lives in `clean_noncommercial.py`, which is not
part of the sources verified here; its run result is taken as an opaque
parameter wherever the orchestrator consumes it, so every theorem about the
orchestrator holds for all possible behaviours of that cleaner.
-/

namespace Fisheries

/--
One raw CSV cell, before `validate_data_types` runs.
A cell that `pd.to_numeric` parses as a number (a numeric literal or a
numeric string) is `num`; a string it cannot parse is `str`; a missing
value is `null`.
-/
inductive Cell where
  | num (q : ℚ)
  | str (s : String)
  | null
deriving DecidableEq, Repr

/--
Embeds `pd.to_numeric(col, errors='coerce')`: numeric cells keep their
value, unparsable strings and missing values become null.
-/
def toNumericCoerce : Cell → Option ℚ
  | .num q => some q
  | .str _ => none
  | .null => none

/--
Embeds `pd.to_numeric(col, errors='coerce').astype('Int64')` as used for
`year` and `area_id`: an unparsable string or a missing value coerces to
NA, but a numeric non-integral value survives `to_numeric` as a float and
then `astype('Int64')` raises `TypeError` on it, aborting the run.
-/
def toInt64Coerce : Cell → Except String (Option ℤ)
  | .num q =>
    if q.den = 1 then .ok (some q.num)
    else .error "TypeError: cannot safely cast non-equivalent float64 to int64"
  | .str _ => .ok none
  | .null => .ok none

/--
One row of the raw commercial table. The categorical columns (`county`,
`species_group`, `ecosystem_type`) are read from CSV as strings and are
never type-coerced by the code, so they are plain strings here. Values of
display-only columns are never read by the pipeline, so they are not
carried on rows; column presence is tracked on the table.
-/
structure RawRow where
  year : Cell
  area_id : Cell
  county : String
  species_group : String
  ecosystem_type : String
  exchange_value : Cell
deriving DecidableEq, Repr

/--
A loaded table: the set of columns the CSV actually has, plus the cell
values of the standard fields. When a standard column is absent from
`columns`, the pipeline halts at `validate_schema` before ever reading it.
-/
structure RawTable where
  columns : List String
  rows : List RawRow
deriving DecidableEq, Repr

/-- One row after `validate_data_types` has coerced the numeric columns. -/
structure Row where
  year : Option ℤ
  area_id : Option ℤ
  county : String
  species_group : String
  ecosystem_type : String
  exchange_value : Option ℚ
deriving DecidableEq, Repr

/-- Required columns checked by `validate_schema`. -/
def required_columns : List String :=
  ["year", "area_id", "county", "species_group", "ecosystem_type", "exchange_value"]

/-- Embeds `validate_schema`: true iff every required column is present. -/
def validate_schema (columns : List String) : Bool :=
  required_columns.all (fun c => columns.contains c)

/--
Embeds `validate_data_types` on one row: `year` and `area_id` go through
the fallible Int64 cast (abort on the first offending cell),
`exchange_value` through the plain numeric coercion, which never raises.
-/
def coerceRow (r : RawRow) : Except String Row :=
  match toInt64Coerce r.year with
  | .error e => .error e
  | .ok y =>
    match toInt64Coerce r.area_id with
    | .error e => .error e
    | .ok a =>
      .ok
        { year := y
          area_id := a
          county := r.county
          species_group := r.species_group
          ecosystem_type := r.ecosystem_type
          exchange_value := toNumericCoerce r.exchange_value }

/--
Embeds `validate_data_types` on the whole table. The source converts
column by column (`year`, then `area_id`, then `exchange_value`); the
traversal here is row by row, which can only change which offending cell
is detected first, and every offending cell raises the same `TypeError`
string, so the result is identical: the typed table when every `year` and
`area_id` cell casts safely, the propagated `TypeError` otherwise.
-/
def validate_data_types : List RawRow → Except String (List Row)
  | [] => .ok []
  | r :: rs =>
    match coerceRow r with
    | .error e => .error e
    | .ok row =>
      match validate_data_types rs with
      | .error e => .error e
      | .ok rest => .ok (row :: rest)

/--
The typed table of a run whose type coercion succeeded. When coercion
raised, the empty list stands in; every theorem using this accessor
carries a hypothesis (a successful run outcome) that rules that case out,
and the pipeline itself uses the fallible `validate_data_types` directly.
-/
def typedRows (tbl : RawTable) : List Row :=
  match validate_data_types tbl.rows with
  | .ok typed => typed
  | .error _ => []

/--
Embeds the issue collection of `validate_data_ranges`. Pandas comparisons
treat a null as not matching (`NA < 1997` is not truthy), hence the `none`
cases. The logged messages interpolate counts and arrays in the source;
here only the fixed text matters.
-/
def rangeIssues (data : List Row) : List String :=
  (if data.any (fun r => match r.exchange_value with
      | some v => decide (v < 0)
      | none => false)
   then ["negative exchange values"] else []) ++
  (if data.any (fun r => match r.year with
      | some y => decide (y < 1997) || decide (y > 2021)
      | none => false)
   then ["Years outside expected range (1997-2021)"] else [])

/--
Embeds `validate_data_ranges`: returns the warnings it would log and the
boolean result, which is `True` unconditionally in the source.
-/
def validate_data_ranges (data : List Row) : List String × Bool :=
  (rangeIssues data, true)

/-- Embeds `remove_null_values`: keep rows whose `exchange_value` is not NA. -/
def remove_null_values (data : List Row) : List Row :=
  data.filter (fun r => r.exchange_value.isSome)

/--
Embeds `remove_aggregate_rows`: when enabled, first drop rows whose
`species_group` is in `['All Species']`, then drop rows whose
`ecosystem_type` is in `['All Ecosystems']`; when disabled, return
the table unchanged.
-/
def remove_aggregate_rows (remove_aggregates : Bool) (data : List Row) : List Row :=
  if !remove_aggregates then data
  else
    let d1 := data.filter (fun r => !(["All Species"].contains r.species_group))
    d1.filter (fun r => !(["All Ecosystems"].contains r.ecosystem_type))

/-- Display-only columns named in `remove_display_columns`. -/
def display_columns : List String :=
  ["county_olelo", "exchange_value_formatted"]

/--
Embeds `remove_display_columns`: when enabled, drop whichever display-only
columns are present; when disabled, keep the column set unchanged.
-/
def remove_display_columns (remove_display : Bool) (columns : List String) : List String :=
  if !remove_display then columns
  else columns.filter (fun c => !(display_columns.contains c))

/-- Insertion step for the sorting used by `sorted(...)` in summaries. -/
def insertLe {α : Type} (le : α → α → Bool) (a : α) : List α → List α
  | [] => [a]
  | b :: bs => if le a b then a :: b :: bs else b :: insertLe le a bs

/-- Insertion sort modelling Python `sorted` for summary fields. -/
def sortLe {α : Type} (le : α → α → Bool) : List α → List α
  | [] => []
  | a :: as => insertLe le a (sortLe le as)

/-- Total order on strings used for the sorted unique-value lists. -/
def strLe (a b : String) : Bool := compare a b != Ordering.gt

/-- Embeds `sorted(series.unique().tolist())` for a string column. -/
def sortedUniqueStr (l : List String) : List String :=
  sortLe strLe l.dedup

/-- Embeds sorted deduplication for an integer column. -/
def sortedUniqueInt (l : List ℤ) : List ℤ :=
  sortLe (fun a b => decide (a ≤ b)) l.dedup

/-- Minimum of a list, `none` when the list is empty (pandas NA). -/
def listMin (l : List ℤ) : Option ℤ :=
  match l with
  | [] => none
  | x :: xs => some (xs.foldl min x)

/-- Maximum of a list, `none` when the list is empty (pandas NA). -/
def listMax (l : List ℤ) : Option ℤ :=
  match l with
  | [] => none
  | x :: xs => some (xs.foldl max x)

/-- Non-null entries of the `year` column (pandas skips NA in min/max/groupby). -/
def yearsOf (data : List Row) : List ℤ :=
  data.filterMap (fun r => r.year)

/-- Summary record built by `generate_summary_statistics`. -/
structure Summary where
  data_type : String
  processing_timestamp : String
  raw_row_count : ℕ
  cleaned_row_count : ℕ
  rows_removed : ℤ
  min_year : ℤ
  max_year : ℤ
  total_exchange_value : ℚ
  unique_counties : List String
  unique_species_groups : List String
  unique_ecosystem_types : List String
  unique_area_ids : List ℤ
  records_by_year : List (ℤ × ℕ)
  total_value_by_year : List (ℤ × ℚ)
deriving DecidableEq, Repr

/--
Embeds `generate_summary_statistics`. The source computes
`int(self.data['year'].min())` and `int(...max())`; when the year column
has no non-null entry (in particular when the table is empty) that minimum
is NA and `int(NA)` raises, modelled by returning `none`.
-/
def generate_summary_statistics (ts : String) (raw_row_count : ℕ) (data : List Row) :
    Option Summary :=
  match listMin (yearsOf data), listMax (yearsOf data) with
  | some mn, some mx =>
    some
      { data_type := "commercial"
        processing_timestamp := ts
        raw_row_count := raw_row_count
        cleaned_row_count := data.length
        rows_removed := (raw_row_count : ℤ) - data.length
        min_year := mn
        max_year := mx
        total_exchange_value := (data.filterMap (fun r => r.exchange_value)).sum
        unique_counties := sortedUniqueStr (data.map (fun r => r.county))
        unique_species_groups := sortedUniqueStr (data.map (fun r => r.species_group))
        unique_ecosystem_types := sortedUniqueStr (data.map (fun r => r.ecosystem_type))
        unique_area_ids := sortedUniqueInt (data.filterMap (fun r => r.area_id))
        records_by_year :=
          (sortedUniqueInt (yearsOf data)).map
            (fun y => (y, (data.filter (fun r => r.year == some y)).length))
        total_value_by_year :=
          (sortedUniqueInt (yearsOf data)).map
            (fun y => (y, ((data.filter (fun r => r.year == some y)).filterMap
              (fun r => r.exchange_value)).sum)) }
  | _, _ => none

/-- The cleaned CSV written by `export_cleaned_data`. -/
structure ExportedCsv where
  file : String
  columns : List String
  rows : List Row
deriving DecidableEq, Repr

/-- Result of one cleaner run: the returned triple, as a sum of the three shapes. -/
inductive PipeOutcome where
  /-- The `(True, output_file, summary)` return. -/
  | ok (output_file : String) (summary : Summary)
  /-- The `(False, None, None)` return. -/
  | failed
  /-- An uncaught exception escaping `run_cleaning_pipeline`. -/
  | raised (msg : String)
deriving DecidableEq, Repr

/-- A cleaner run together with the CSV it wrote, if any. -/
structure RunResult where
  outcome : PipeOutcome
  exported : Option ExportedCsv
deriving DecidableEq, Repr

/-- Rows the cleaner keeps when type coercion succeeds — null removal then
optional aggregate removal — or the propagated cast `TypeError`. -/
def cleanedRows (tbl : RawTable) (remove_aggregates : Bool) :
    Except String (List Row) :=
  match validate_data_types tbl.rows with
  | .error e => .error e
  | .ok typed =>
    .ok (remove_aggregate_rows remove_aggregates (remove_null_values typed))

/--
Embeds `CommercialDataCleaner.run_cleaning_pipeline`. The `input` is the
outcome of `load_data` (`none` = no file matched or an I/O error, both of
which make `load_data` return False). Stages run in source order: schema
validation on the raw columns, type coercion — whose `astype('Int64')`
`TypeError` on a non-integral numeric cell escapes before anything is
written — the advisory validations (which touch nothing), null removal,
aggregate removal, display-column removal, CSV export, then summary
generation, whose `int(NA)` failure on an empty year column escapes after
the CSV was already written.
-/
def run_cleaning_pipeline (input : Option RawTable)
    (remove_aggregates remove_display : Bool) (ts : String) : RunResult :=
  match input with
  | none => ⟨.failed, none⟩
  | some tbl =>
    if validate_schema tbl.columns then
      match validate_data_types tbl.rows with
      | .error e => ⟨.raised e, none⟩
      | .ok typed =>
        let data := remove_aggregate_rows remove_aggregates
          (remove_null_values typed)
        let cols := remove_display_columns remove_display tbl.columns
        let file := "cleaned_commercial_" ++ ts ++ ".csv"
        let csv : ExportedCsv := ⟨file, cols, data⟩
        match generate_summary_statistics ts tbl.rows.length data with
        | some s => ⟨.ok file s, some csv⟩
        | none => ⟨.raised "TypeError: int() argument of NA year minimum", some csv⟩
    else ⟨.failed, none⟩

/--
What `self.results['commercial']` / `['non_commercial']` holds after the
corresponding run method stored its outcome: the success dict
`{'success': True, 'output_file': ..., 'summary': ...}` or the failure dict
`{'success': False, 'error': ...}`.
-/
inductive CleanerRecord where
  | success (output_file : String) (summary : Summary)
  | failure (error : String)
deriving DecidableEq, Repr

/-- The `self.results` dict of `FisheriesCleaningPipeline`; `none` = the
initial `None`, before that cleaner's run method stored anything. -/
structure OrchResults where
  commercial : Option CleanerRecord
  non_commercial : Option CleanerRecord
deriving DecidableEq, Repr

/--
Embeds the dict access `record['summary']`. The failure record is the dict
`{'success': False, 'error': ...}`, which has no `'summary'` key, so the
access raises `KeyError`.
-/
def recordSummary : CleanerRecord → Except String Summary
  | .success _ s => .ok s
  | .failure _ => .error "KeyError: 'summary'"

/--
Embeds `self.results[k]['summary'] if self.results[k] else None`. Python
truthiness: `None` is falsy, but any non-empty dict — including the failure
record — is truthy, so for a failed cleaner the `'summary'` access runs and
raises `KeyError`.
-/
def childSummary : Option CleanerRecord → Except String (Option Summary)
  | none => .ok none
  | some r => (recordSummary r).map some

/-- The `overall` block of the combined summary. -/
structure Overall where
  total_records : ℕ
  total_exchange_value : ℚ
  min_year : ℤ
  max_year : ℤ
deriving DecidableEq, Repr

/-- The combined summary dict built by `generate_combined_summary`. -/
structure CombinedSummary where
  pipeline_timestamp : String
  commercial : Option Summary
  non_commercial : Option Summary
  overall : Option Overall
deriving DecidableEq, Repr

/--
Embeds `generate_combined_summary`. The guard
`if self.results['commercial'] and self.results['non_commercial']` is a
truthiness test, so it passes exactly when both entries are not `None`;
the `['summary']` accesses inside (and in the two child-summary lines
above it) raise `KeyError` on a failure record.
-/
def generate_combined_summary (results : OrchResults) (ts : String) :
    Except String CombinedSummary := do
  let cs ← childSummary results.commercial
  let ns ← childSummary results.non_commercial
  match results.commercial, results.non_commercial with
  | some rc, some rn => do
    let s1 ← recordSummary rc
    let s2 ← recordSummary rn
    pure
      { pipeline_timestamp := ts
        commercial := cs
        non_commercial := ns
        overall := some
          { total_records := s1.cleaned_row_count + s2.cleaned_row_count
            total_exchange_value := s1.total_exchange_value + s2.total_exchange_value
            min_year := min s1.min_year s2.min_year
            max_year := max s1.max_year s2.max_year } }
  | _, _ =>
    pure
      { pipeline_timestamp := ts
        commercial := cs
        non_commercial := ns
        overall := none }

/-- Embeds `export_summary_json`: the dated file name it writes to. -/
def export_summary_json (ts : String) : String :=
  "cleaning_summary_" ++ ts ++ ".json"

/--
Embeds `run_commercial_cleaning`: stores a success or failure record from
the cleaner's triple and returns the success flag; an exception escaping
the cleaner propagates.
-/
def run_commercial_cleaning (res : RunResult) : Except String (Bool × CleanerRecord) :=
  match res.outcome with
  | .ok f s => .ok (true, .success f s)
  | .failed => .ok (false, .failure "Commercial data cleaning failed")
  | .raised e => .error e

/-- Embeds `run_noncommercial_cleaning`, same shape as the commercial one. -/
def run_noncommercial_cleaning (res : RunResult) : Except String (Bool × CleanerRecord) :=
  match res.outcome with
  | .ok f s => .ok (true, .success f s)
  | .failed => .ok (false, .failure "Non-commercial data cleaning failed")
  | .raised e => .error e

/-- Files written by a cleaner run. -/
def exportedFiles (res : RunResult) : List String :=
  match res.exported with
  | some csv => [csv.file]
  | none => []

/-- Observable result of `run_full_pipeline`. -/
structure FullRunResult where
  overall_success : Bool
  results : OrchResults
  /-- CSV files written by the two cleaners during the run. -/
  csv_writes : List String
  /-- File written by a call to `export_summary_json` during the run, if
  any; `run_full_pipeline` contains no such call, so this is `none`. -/
  summary_json_write : Option String
deriving DecidableEq, Repr

/--
Embeds `run_full_pipeline`: sets up logging, runs the commercial cleaning,
runs the non-commercial cleaning, calls `generate_pipeline_report` (which
only logs), and returns `comm_success and noncomm_success`. The body calls
neither `generate_combined_summary` nor `export_summary_json`. The
non-commercial cleaner is outside the verified sources, so its run result
`noncommRun` is an arbitrary parameter.
-/
def run_full_pipeline (commInput : Option RawTable) (noncommRun : RunResult)
    (remove_aggregates remove_display : Bool) (ts : String) :
    Except String FullRunResult := do
  let commRes := run_cleaning_pipeline commInput remove_aggregates remove_display ts
  let cc ← run_commercial_cleaning commRes
  let nc ← run_noncommercial_cleaning noncommRun
  pure
    { overall_success := cc.fst && nc.fst
      results := ⟨some cc.snd, some nc.snd⟩
      csv_writes := exportedFiles commRes ++ exportedFiles noncommRun
      summary_json_write := none }

/-- The combined-summary file a full-pipeline run wrote, if any. -/
def jsonWriteOf : Except String FullRunResult → Option String
  | .ok r => r.summary_json_write
  | .error _ => none

/-- Rows of the CSV a cleaner run exported (empty when nothing was written). -/
def exportedRows (res : RunResult) : List Row :=
  match res.exported with
  | some csv => csv.rows
  | none => []

/-- Rows dropped by `remove_null_values`, as the source logs them
(`before_count - after_count`). -/
def nullDropCount (data : List Row) : ℕ :=
  data.length - (remove_null_values data).length

/-- Rows dropped by `remove_aggregate_rows`, as the source logs them. -/
def aggDropCount (remove_aggregates : Bool) (data : List Row) : ℕ :=
  data.length - (remove_aggregate_rows remove_aggregates data).length

/-- A well-formed data row that survives every filter. -/
def sampleRow : RawRow :=
  ⟨.num 2000, .num 101, "Maui", "Pelagics", "Inshore — Reef", .num 500⟩

/-- A row with a null `exchange_value`, dropped by `remove_null_values`. -/
def nullValueRow : RawRow :=
  ⟨.num 2001, .num 102, "Maui", "Pelagics", "Inshore — Reef", .null⟩

/-- An aggregate row, dropped by `remove_aggregate_rows` when enabled. -/
def aggregateRow : RawRow :=
  ⟨.num 2002, .num 103, "Maui", "All Species", "Inshore — Reef", .num 10⟩

/-- The scenario row of the spec: out-of-range year, non-null value. -/
def scenarioRow : RawRow :=
  ⟨.num 1996, .num 101, "Maui", "Pelagics", "Coastal — Open Ocean", .num 500⟩

/-- A concrete input table with all required columns. -/
def sampleTable : RawTable :=
  ⟨required_columns, [sampleRow, nullValueRow, aggregateRow]⟩

/-- A table missing the required `exchange_value` column. -/
def missingColumnTable : RawTable :=
  ⟨["year", "area_id", "county", "species_group", "ecosystem_type"], []⟩

/-- A table whose only row has a null `exchange_value`, so cleaning empties it. -/
def allNullTable : RawTable :=
  ⟨required_columns, [nullValueRow]⟩

/-- A table containing the spec's advisory-range scenario row. -/
def scenarioTable : RawTable :=
  ⟨required_columns, [scenarioRow]⟩

/-- The rational number 2000.5, a year value `astype('Int64')` rejects. -/
def nonIntegralYear : ℚ := ⟨4001, 2, by decide, by decide⟩

/-- A row whose numeric `year` cell 2000.5 is non-integral, so type
coercion raises on it. -/
def badYearRow : RawRow :=
  ⟨.num nonIntegralYear, .num 104, "Maui", "Pelagics", "Inshore — Reef", .num 20⟩

/-- A schema-valid table on which `validate_data_types` raises. -/
def badYearTable : RawTable :=
  ⟨required_columns, [sampleRow, badYearRow]⟩

/-- The typed row `validate_data_types` produces from `sampleRow`. -/
def sampleTypedRow : Row :=
  ⟨some 2000, some 101, "Maui", "Pelagics", "Inshore — Reef", some 500⟩

/-- The typed table `validate_data_types` produces on `sampleTable`. -/
def sampleTypedRows : List Row :=
  [⟨some 2000, some 101, "Maui", "Pelagics", "Inshore — Reef", some 500⟩,
   ⟨some 2001, some 102, "Maui", "Pelagics", "Inshore — Reef", none⟩,
   ⟨some 2002, some 103, "Maui", "All Species", "Inshore — Reef", some 10⟩]

/-- The typed row `validate_data_types` produces from `scenarioRow`. -/
def scenarioTypedRow : Row :=
  ⟨some 1996, some 101, "Maui", "Pelagics", "Coastal — Open Ocean", some 500⟩

/-- The summary the cleaner produces on `sampleTable` with
`remove_aggregates=True` and timestamp `"d"`. -/
def sampleRunSummary : Summary :=
  { data_type := "commercial"
    processing_timestamp := "d"
    raw_row_count := 3
    cleaned_row_count := 1
    rows_removed := 2
    min_year := 2000
    max_year := 2000
    total_exchange_value := 500
    unique_counties := ["Maui"]
    unique_species_groups := ["Pelagics"]
    unique_ecosystem_types := ["Inshore — Reef"]
    unique_area_ids := [101]
    records_by_year := [(2000, 1)]
    total_value_by_year := [(2000, 500)] }

/-- A second concrete summary, standing for a non-commercial cleaner result. -/
def otherSummary : Summary :=
  { data_type := "non_commercial"
    processing_timestamp := "d"
    raw_row_count := 4
    cleaned_row_count := 2
    rows_removed := 2
    min_year := 2005
    max_year := 2010
    total_exchange_value := 40
    unique_counties := ["Hawaii"]
    unique_species_groups := ["Herbivores"]
    unique_ecosystem_types := ["Inshore — Reef"]
    unique_area_ids := []
    records_by_year := [(2005, 1), (2010, 1)]
    total_value_by_year := [(2005, 10), (2010, 30)] }

theorem mem_of_mem_remove_aggregate_rows {b : Bool} {d : List Row} {r : Row}
    (h : r ∈ remove_aggregate_rows b d) : r ∈ d := by
  cases b with
  | false => simpa [remove_aggregate_rows] using h
  | true =>
    simp only [remove_aggregate_rows, Bool.not_true, Bool.false_eq_true,
      if_false] at h
    exact List.mem_of_mem_filter (List.mem_of_mem_filter h)

theorem isSome_of_mem_remove_null {d : List Row} {r : Row}
    (h : r ∈ remove_null_values d) : r.exchange_value.isSome = true := by
  simp only [remove_null_values, List.mem_filter] at h
  exact h.2

/--
Claim C6: calling `remove_aggregate_rows` with `remove_aggregates=False`
leaves the table unchanged — every row is preserved, so in particular the
row count after the step equals the row count before it.
-/
theorem remove_aggregate_rows_false_is_noop (data : List Row) :
    remove_aggregate_rows false data = data := rfl

/--
Claim C1 (refuting evidence): no invocation of `run_full_pipeline` writes a
combined-summary JSON file, whatever the inputs, the flags, and the
non-commercial cleaner's behaviour: the orchestrator's end-to-end entry
point never calls `generate_combined_summary` or `export_summary_json`,
although its own docstring and the CLI's success message say the combined
summary is exported.
-/
theorem run_full_pipeline_writes_no_summary_json
    (commInput : Option RawTable) (noncommRun : RunResult)
    (remove_aggregates remove_display : Bool) (ts : String) :
    jsonWriteOf
      (run_full_pipeline commInput noncommRun remove_aggregates remove_display ts)
      = none := by
  cases hc : run_commercial_cleaning
      (run_cleaning_pipeline commInput remove_aggregates remove_display ts) with
  | error e =>
    simp [run_full_pipeline, jsonWriteOf, hc, Bind.bind, Except.bind]
  | ok cc =>
    cases hn : run_noncommercial_cleaning noncommRun with
    | error e =>
      simp [run_full_pipeline, jsonWriteOf, hc, hn, Bind.bind, Except.bind]
    | ok nc =>
      simp [run_full_pipeline, jsonWriteOf, hc, hn, Bind.bind, Except.bind,
        Pure.pure, Except.pure]

/--
Claim C2: when both cleaners succeeded, `generate_combined_summary` does
produce the `overall` block with `total_records` equal to the sum of the
two `cleaned_row_count` values; but when a cleaning failed it does not
return a summary with `overall` absent — it raises `KeyError`, because the
stored failure record `{'success': False, 'error': ...}` is a truthy
non-empty dict and the `['summary']` access runs on it.
-/
theorem combined_summary_overall_block_evaluation :
    generate_combined_summary
        ⟨some (.success "cleaned_commercial_d.csv" sampleRunSummary),
         some (.success "cleaned_noncommercial_d.csv" otherSummary)⟩ "d"
      = .ok
          { pipeline_timestamp := "d"
            commercial := some sampleRunSummary
            non_commercial := some otherSummary
            overall := some
              { total_records :=
                  sampleRunSummary.cleaned_row_count + otherSummary.cleaned_row_count
                total_exchange_value :=
                  sampleRunSummary.total_exchange_value + otherSummary.total_exchange_value
                min_year := min sampleRunSummary.min_year otherSummary.min_year
                max_year := max sampleRunSummary.max_year otherSummary.max_year } }
    ∧ generate_combined_summary
        ⟨some (.failure "Commercial data cleaning failed"),
         some (.success "cleaned_noncommercial_d.csv" otherSummary)⟩ "d"
      = .error "KeyError: 'summary'" :=
  ⟨rfl, rfl⟩

/--
Claim C3: `generate_combined_summary` does not return a combined summary
with a null field for a failed cleaner — for a failed cleaner it raises
`KeyError` (the failure dict is truthy and has no `summary` key). Only for
a cleaner that never ran (`results` entry still `None`) does the field
come out null.
-/
theorem combined_summary_failed_child_raises :
    generate_combined_summary
        ⟨some (.success "cleaned_commercial_d.csv" sampleRunSummary),
         some (.failure "Non-commercial data cleaning failed")⟩ "d"
      = .error "KeyError: 'summary'"
    ∧ generate_combined_summary ⟨none, none⟩ "d"
      = .ok
          { pipeline_timestamp := "d"
            commercial := none
            non_commercial := none
            overall := none } :=
  ⟨rfl, rfl⟩

theorem exported_mem_filtered {input : Option RawTable} {ra rd : Bool}
    {ts : String} {r : Row}
    (hmem : r ∈ exportedRows (run_cleaning_pipeline input ra rd ts)) :
    ∃ tbl typed, input = some tbl
      ∧ validate_data_types tbl.rows = .ok typed
      ∧ r ∈ remove_aggregate_rows ra (remove_null_values typed) := by
  cases input with
  | none => simp [run_cleaning_pipeline, exportedRows] at hmem
  | some tbl =>
    by_cases hs : validate_schema tbl.columns = true
    · cases ht : validate_data_types tbl.rows with
      | error e =>
        simp [run_cleaning_pipeline, hs, ht, exportedRows] at hmem
      | ok typed =>
        refine ⟨tbl, typed, rfl, ht, ?_⟩
        simp only [run_cleaning_pipeline, hs, if_true, ht] at hmem
        cases hsum : generate_summary_statistics ts tbl.rows.length
            (remove_aggregate_rows ra (remove_null_values typed)) with
        | none => simpa [exportedRows, hsum] using hmem
        | some s => simpa [exportedRows, hsum] using hmem
    · simp [run_cleaning_pipeline, hs, exportedRows] at hmem

theorem sentinel_free_of_mem_remove_aggregate_true {d : List Row} {r : Row}
    (h : r ∈ remove_aggregate_rows true d) :
    r.species_group ≠ "All Species" ∧ r.ecosystem_type ≠ "All Ecosystems" := by
  simp only [remove_aggregate_rows, Bool.not_true, Bool.false_eq_true,
    if_false] at h
  have h2 := (List.mem_filter.mp h).2
  have h1 := (List.mem_filter.mp (List.mem_of_mem_filter h)).2
  refine ⟨?_, ?_⟩
  · simpa using h1
  · simpa using h2

/--
Claim C4: no row of the exported cleaned table has a null
`exchange_value` — `remove_null_values` drops exactly the rows whose
`exchange_value` is null and no later stage reintroduces rows.
-/
theorem exported_rows_have_no_null_exchange_value
    (input : Option RawTable) (remove_aggregates remove_display : Bool)
    (ts : String) (r : Row)
    (hmem : r ∈ exportedRows
      (run_cleaning_pipeline input remove_aggregates remove_display ts)) :
    r.exchange_value.isSome = true := by
  obtain ⟨tbl, typed, -, -, hrows⟩ := exported_mem_filtered hmem
  exact isSome_of_mem_remove_null (mem_of_mem_remove_aggregate_rows hrows)

/-- Witness for C4 on a concrete successful run. -/
theorem exported_rows_have_no_null_exchange_value_witness :
    (scenarioTypedRow).exchange_value.isSome = true :=
  exported_rows_have_no_null_exchange_value (some scenarioTable) true false "d"
    scenarioTypedRow (by decide)

/--
Claim C5: with `remove_aggregates=true` the output table contains no row
whose `species_group` is `"All Species"` and no row whose `ecosystem_type`
is `"All Ecosystems"`; the two filters are applied independently, so a row
matching either sentinel is dropped.
-/
theorem remove_aggregates_true_excludes_sentinel_rows
    (input : Option RawTable) (remove_display : Bool) (ts : String) (r : Row)
    (hmem : r ∈ exportedRows
      (run_cleaning_pipeline input true remove_display ts)) :
    r.species_group ≠ "All Species" ∧ r.ecosystem_type ≠ "All Ecosystems" := by
  obtain ⟨tbl, typed, -, -, hrows⟩ := exported_mem_filtered hmem
  exact sentinel_free_of_mem_remove_aggregate_true hrows

/-- Witness for C5 on a concrete successful run. -/
theorem remove_aggregates_true_excludes_sentinel_rows_witness :
    sampleTypedRow.species_group ≠ "All Species"
    ∧ sampleTypedRow.ecosystem_type ≠ "All Ecosystems" :=
  remove_aggregates_true_excludes_sentinel_rows (some sampleTable) false "d"
    sampleTypedRow (by decide)

theorem exportedRows_coercion_ok {tbl : RawTable} {typed : List Row}
    (ra rd : Bool) (ts : String)
    (hs : validate_schema tbl.columns = true)
    (ht : validate_data_types tbl.rows = .ok typed) :
    exportedRows (run_cleaning_pipeline (some tbl) ra rd ts)
      = remove_aggregate_rows ra (remove_null_values typed) := by
  simp only [run_cleaning_pipeline, hs, if_true, ht]
  cases hsum : generate_summary_statistics ts tbl.rows.length
      (remove_aggregate_rows ra (remove_null_values typed)) <;>
    simp [exportedRows]

/--
Counterexample to claim C7 as stated: `badYearTable` passes schema
validation, yet the run aborts inside `validate_data_types` — the
`astype('Int64')` `TypeError` on the non-integral numeric year 2000.5 —
so the later stages do not execute and no output file is produced, even
though nothing failed at load or schema validation.
-/
theorem schema_valid_run_aborts_in_type_coercion :
    validate_schema badYearTable.columns = true
    ∧ run_cleaning_pipeline (some badYearTable) true false "d"
        = ⟨.raised "TypeError: cannot safely cast non-equivalent float64 to int64",
           none⟩ := by
  exact ⟨by decide, by decide⟩

/--
Claim C7 (amended): when loading fails or a required column is missing,
the cleaner pipeline returns `(False, None, None)` at once, runs no
further stage and writes no output file. Once schema validation passes,
type coercion always executes, but can itself abort the run: a numeric
non-integral `year`/`area_id` cell makes `astype('Int64')` raise
`TypeError` and nothing is exported. When type coercion succeeds, all
remaining stages execute unconditionally regardless of warnings — the
exported CSV exists and holds the fully filtered table.
-/
theorem pipeline_halts_on_load_or_schema_failure
    (remove_aggregates remove_display : Bool) (ts : String) :
    run_cleaning_pipeline none remove_aggregates remove_display ts
      = ⟨.failed, none⟩
    ∧ (∀ tbl : RawTable, validate_schema tbl.columns = false →
        run_cleaning_pipeline (some tbl) remove_aggregates remove_display ts
          = ⟨.failed, none⟩)
    ∧ (∀ (tbl : RawTable) (e : String), validate_schema tbl.columns = true →
        validate_data_types tbl.rows = .error e →
        run_cleaning_pipeline (some tbl) remove_aggregates remove_display ts
          = ⟨.raised e, none⟩)
    ∧ (∀ (tbl : RawTable) (typed : List Row),
        validate_schema tbl.columns = true →
        validate_data_types tbl.rows = .ok typed →
        (run_cleaning_pipeline (some tbl) remove_aggregates remove_display ts).exported
          = some ⟨"cleaned_commercial_" ++ ts ++ ".csv",
                  remove_display_columns remove_display tbl.columns,
                  remove_aggregate_rows remove_aggregates
                    (remove_null_values typed)⟩) := by
  refine ⟨rfl, ?_, ?_, ?_⟩
  · intro tbl h
    simp [run_cleaning_pipeline, h]
  · intro tbl e h ht
    simp [run_cleaning_pipeline, h, ht]
  · intro tbl typed h ht
    simp only [run_cleaning_pipeline, h, if_true, ht]
    cases hsum : generate_summary_statistics ts tbl.rows.length
        (remove_aggregate_rows remove_aggregates (remove_null_values typed)) <;>
      simp

/-- Witness for C7: a missing input, a table lacking `exchange_value`, a
table on which type coercion raises, and a well-formed table. -/
theorem pipeline_halts_on_load_or_schema_failure_witness :
    run_cleaning_pipeline none true false "d" = ⟨.failed, none⟩
    ∧ run_cleaning_pipeline (some missingColumnTable) true false "d"
        = ⟨.failed, none⟩
    ∧ run_cleaning_pipeline (some badYearTable) false false "d"
        = ⟨.raised "TypeError: cannot safely cast non-equivalent float64 to int64",
           none⟩
    ∧ (run_cleaning_pipeline (some sampleTable) true false "d").exported
        = some ⟨"cleaned_commercial_" ++ "d" ++ ".csv",
                remove_display_columns false sampleTable.columns,
                remove_aggregate_rows true (remove_null_values sampleTypedRows)⟩ :=
  ⟨(pipeline_halts_on_load_or_schema_failure true false "d").1,
   (pipeline_halts_on_load_or_schema_failure true false "d").2.1
     missingColumnTable (by decide),
   (pipeline_halts_on_load_or_schema_failure false false "d").2.2.1
     badYearTable "TypeError: cannot safely cast non-equivalent float64 to int64"
     (by decide) rfl,
   (pipeline_halts_on_load_or_schema_failure true false "d").2.2.2
     sampleTable sampleTypedRows (by decide) rfl⟩

theorem generate_summary_counts {ts : String} {raw : ℕ} {data : List Row}
    {s : Summary} (h : generate_summary_statistics ts raw data = some s) :
    s.raw_row_count = raw ∧ s.cleaned_row_count = data.length := by
  unfold generate_summary_statistics at h
  cases hmn : listMin (yearsOf data) with
  | none => rw [hmn] at h; exact absurd h (by simp)
  | some mn =>
    cases hmx : listMax (yearsOf data) with
    | none => rw [hmn, hmx] at h; exact absurd h (by simp)
    | some mx =>
      rw [hmn, hmx] at h
      injection h with h2
      subst h2
      exact ⟨rfl, rfl⟩

theorem validate_data_types_length {rows : List RawRow} {typed : List Row}
    (h : validate_data_types rows = .ok typed) :
    typed.length = rows.length := by
  induction rows generalizing typed with
  | nil =>
    rw [validate_data_types] at h
    injection h with h2
    rw [← h2]
    rfl
  | cons a as ih =>
    rw [validate_data_types] at h
    cases ha : coerceRow a with
    | error e => rw [ha] at h; exact Except.noConfusion h
    | ok row =>
      rw [ha] at h
      cases hrest : validate_data_types as with
      | error e => rw [hrest] at h; exact Except.noConfusion h
      | ok rest =>
        rw [hrest] at h
        injection h with h2
        rw [← h2]
        simp [ih hrest]

theorem mem_typed_of_coercion_ok {rows : List RawRow} {typed : List Row}
    (h : validate_data_types rows = .ok typed) {r : RawRow} {row : Row}
    (hmem : r ∈ rows) (hrow : coerceRow r = .ok row) : row ∈ typed := by
  induction rows generalizing typed with
  | nil => cases hmem
  | cons a as ih =>
    rw [validate_data_types] at h
    cases ha : coerceRow a with
    | error e => rw [ha] at h; exact Except.noConfusion h
    | ok rowa =>
      rw [ha] at h
      cases hrest : validate_data_types as with
      | error e => rw [hrest] at h; exact Except.noConfusion h
      | ok rest =>
        rw [hrest] at h
        injection h with h2
        rw [← h2]
        rcases List.mem_cons.mp hmem with hmem | hmem
        · subst hmem
          rw [ha] at hrow
          injection hrow with h3
          rw [h3]
          exact List.mem_cons_self _ _
        · exact List.mem_cons_of_mem _ (ih hrest hmem)

theorem run_ok_coercion {tbl : RawTable} {ra rd : Bool} {ts f : String}
    {s : Summary}
    (h : (run_cleaning_pipeline (some tbl) ra rd ts).outcome = .ok f s) :
    ∃ typed, validate_data_types tbl.rows = .ok typed := by
  by_cases hs : validate_schema tbl.columns = true
  · cases ht : validate_data_types tbl.rows with
    | error e => simp [run_cleaning_pipeline, hs, ht] at h
    | ok typed => exact ⟨typed, rfl⟩
  · simp [run_cleaning_pipeline, hs] at h

theorem summary_of_run_ok {tbl : RawTable} {ra rd : Bool} {ts f : String}
    {s : Summary}
    (h : (run_cleaning_pipeline (some tbl) ra rd ts).outcome = .ok f s) :
    s.raw_row_count = tbl.rows.length
    ∧ s.cleaned_row_count
        = (remove_aggregate_rows ra (remove_null_values (typedRows tbl))).length := by
  by_cases hs : validate_schema tbl.columns = true
  · cases ht : validate_data_types tbl.rows with
    | error e => simp [run_cleaning_pipeline, hs, ht] at h
    | ok typed =>
      have htyped : typedRows tbl = typed := by simp [typedRows, ht]
      rw [htyped]
      simp only [run_cleaning_pipeline, hs, if_true, ht] at h
      cases hsum : generate_summary_statistics ts tbl.rows.length
          (remove_aggregate_rows ra (remove_null_values typed)) with
      | none => rw [hsum] at h; exact absurd h (by simp)
      | some s0 =>
        rw [hsum] at h
        have hs0 : s0 = s := by
          have := h
          simp only [PipeOutcome.ok.injEq] at this
          exact this.2
        subst hs0
        exact generate_summary_counts hsum
  · simp [run_cleaning_pipeline, hs] at h

theorem length_remove_aggregate_le (b : Bool) (d : List Row) :
    (remove_aggregate_rows b d).length ≤ d.length := by
  cases b with
  | false => simp [remove_aggregate_rows]
  | true =>
    simp only [remove_aggregate_rows, Bool.not_true, Bool.false_eq_true,
      if_false]
    exact le_trans (List.length_filter_le _ _) (List.length_filter_le _ _)

/--
Claim C8: for every successful cleaner run,
`raw_row_count - cleaned_row_count` equals the rows dropped by
`remove_null_values` plus the rows dropped by `remove_aggregate_rows`; no
other stage changes the row count.
-/
theorem summary_accounting_identity
    (tbl : RawTable) (ra rd : Bool) (ts f : String) (s : Summary)
    (h : (run_cleaning_pipeline (some tbl) ra rd ts).outcome = .ok f s) :
    (s.raw_row_count : ℤ) - s.cleaned_row_count
      = nullDropCount (typedRows tbl)
        + aggDropCount ra (remove_null_values (typedRows tbl)) := by
  obtain ⟨h1, h2⟩ := summary_of_run_ok h
  obtain ⟨typed, ht⟩ := run_ok_coercion h
  have htyped : typedRows tbl = typed := by simp [typedRows, ht]
  have e1 : (typedRows tbl).length = tbl.rows.length := by
    rw [htyped]
    exact validate_data_types_length ht
  have l1 : (remove_null_values (typedRows tbl)).length ≤ (typedRows tbl).length :=
    List.length_filter_le _ _
  have l2 : (remove_aggregate_rows ra (remove_null_values (typedRows tbl))).length
      ≤ (remove_null_values (typedRows tbl)).length :=
    length_remove_aggregate_le _ _
  unfold nullDropCount aggDropCount
  rw [h1, h2]
  omega

/-- Witness for C8 on a concrete run dropping one null row and one
aggregate row. -/
theorem summary_accounting_identity_witness :
    (sampleRunSummary.raw_row_count : ℤ) - sampleRunSummary.cleaned_row_count
      = nullDropCount (typedRows sampleTable)
        + aggDropCount true (remove_null_values (typedRows sampleTable)) :=
  summary_accounting_identity sampleTable true false "d"
    "cleaned_commercial_d.csv" sampleRunSummary
    (by simp [run_cleaning_pipeline, sampleTable, sampleRow, nullValueRow,
      aggregateRow, validate_schema, required_columns, validate_data_types,
      coerceRow, remove_null_values, remove_aggregate_rows, toInt64Coerce,
      toNumericCoerce, generate_summary_statistics, yearsOf, listMin, listMax,
      sortedUniqueStr, sortedUniqueInt, sortLe, insertLe, strLe,
      sampleRunSummary, List.dedup])

/--
Claim C9: `validate_data_ranges` is purely advisory — it returns `True`
unconditionally and never blocks the pipeline, so a row with an
out-of-range year and a non-null `exchange_value` is retained in the
cleaned output while an out-of-range warning is logged.
-/
theorem range_validation_is_advisory
    (tbl : RawTable) (ra rd : Bool) (ts : String) (r : RawRow) (row : Row)
    (typed : List Row) (y : ℤ)
    (hschema : validate_schema tbl.columns = true)
    (htyped : validate_data_types tbl.rows = .ok typed)
    (hmem : r ∈ tbl.rows)
    (hrow : coerceRow r = .ok row)
    (hyear : row.year = some y)
    (hy : y < 1997 ∨ 2021 < y)
    (hval : row.exchange_value.isSome = true)
    (hsp : row.species_group ≠ "All Species")
    (heco : row.ecosystem_type ≠ "All Ecosystems") :
    (validate_data_ranges typed).snd = true
    ∧ (validate_data_ranges typed).fst ≠ []
    ∧ row ∈ exportedRows (run_cleaning_pipeline (some tbl) ra rd ts) := by
  have hmem' : row ∈ typed := mem_typed_of_coercion_ok htyped hmem hrow
  refine ⟨rfl, ?_, ?_⟩
  · have hany : typed.any (fun r => match r.year with
        | some y => decide (y < 1997) || decide (y > 2021)
        | none => false) = true := by
      rw [List.any_eq_true]
      refine ⟨row, hmem', ?_⟩
      rw [hyear]
      rcases hy with hy | hy <;> simp [hy]
    intro hnil
    rw [validate_data_ranges] at hnil
    simp only [rangeIssues, hany, if_true] at hnil
    rcases List.append_eq_nil.mp hnil with ⟨-, h2⟩
    exact List.cons_ne_nil _ _ h2
  · rw [exportedRows_coercion_ok ra rd ts hschema htyped]
    have hnn : row ∈ remove_null_values typed :=
      List.mem_filter.mpr ⟨hmem', hval⟩
    cases ra with
    | false => exact hnn
    | true =>
      simp only [remove_aggregate_rows, Bool.not_true,
        Bool.false_eq_true, if_false]
      refine List.mem_filter.mpr ⟨List.mem_filter.mpr ⟨hnn, ?_⟩, ?_⟩
      · simpa using hsp
      · simpa using heco

/-- Witness for C9 on the spec's scenario row with year 1996. -/
theorem range_validation_is_advisory_witness :
    (validate_data_ranges [scenarioTypedRow]).snd = true
    ∧ (validate_data_ranges [scenarioTypedRow]).fst ≠ []
    ∧ scenarioTypedRow ∈ exportedRows
        (run_cleaning_pipeline (some scenarioTable) true false "d") :=
  range_validation_is_advisory scenarioTable true false "d" scenarioRow
    scenarioTypedRow [scenarioTypedRow] 1996
    (by decide) rfl (by decide) rfl (by decide) (by decide)
    (by decide) (by decide) (by decide)

/--
Claim C10: when cleaning removes every row, `generate_summary_statistics`
hits `int()` of an NA year minimum, so `run_cleaning_pipeline` raises
instead of returning either `(True, file, summary)` or the
`(False, None, None)` failure triple.
-/
theorem empty_cleaned_table_raises
    (tbl : RawTable) (ra rd : Bool) (ts : String)
    (hschema : validate_schema tbl.columns = true)
    (hempty : cleanedRows tbl ra = .ok []) :
    (run_cleaning_pipeline (some tbl) ra rd ts).outcome
      = .raised "TypeError: int() argument of NA year minimum" := by
  cases ht : validate_data_types tbl.rows with
  | error e => simp [cleanedRows, ht] at hempty
  | ok typed =>
    have hfilter : remove_aggregate_rows ra (remove_null_values typed) = [] := by
      simp only [cleanedRows, ht, Except.ok.injEq] at hempty
      exact hempty
    simp only [run_cleaning_pipeline, hschema, if_true, ht]
    have hnone : generate_summary_statistics ts tbl.rows.length
        (remove_aggregate_rows ra (remove_null_values typed)) = none := by
      rw [hfilter]; rfl
    rw [hnone]

/-- Witness for C10: a table whose only row has a null `exchange_value`. -/
theorem empty_cleaned_table_raises_witness :
    (run_cleaning_pipeline (some allNullTable) true false "d").outcome
      = .raised "TypeError: int() argument of NA year minimum" :=
  empty_cleaned_table_raises allNullTable true false "d" (by decide) rfl

end Fisheries
